import Mathlib

/-!
Verification of the TaskuOpe game-completion / autosave core
(`materials/views/api.py`).

The two request handlers `complete_game_ajax_view` and
`assignment_autosave_view`, the generation wrapper
`generate_game_ajax_view`, and the helper `generate_game_content` are
embedded as pure Lean functions.  Persistent state (the `Assignment` row
together with its `Submission` rows) is passed explicitly and the new
state is returned with the JSON response.  External effects are
abstracted as inputs:

* `timezone.now()` becomes a `now : Nat` parameter;
* the parsed JSON request body of the completion endpoint becomes
  `body : Option (Option Int)` — `none` models a `json.JSONDecodeError`,
  `some s` a parsed JSON object whose optional `score` field is `s`;
* the OpenAI chat completion reply text of `generate_game_content`
  becomes `apiReply : Option JsonVal` — `none` models a reply on which
  `json.loads` raises, `some v` a reply parsing to the JSON value `v`;
* `material.structured_content` becomes the list of top-level keys of
  the stored JSON object (`none` for a null column), which is all the
  dispatch code inspects.

Python truthiness (`existing_sub.score and existing_sub.score >= 80`,
`score or 0`, `if not topic`) is translated literally.
-/

namespace TaskuOpe

/-- `Assignment.Status` values used by the handlers. -/
inductive AStatus
  | ASSIGNED
  | IN_PROGRESS
  | SUBMITTED
  | GRADED
deriving DecidableEq, Repr

/-- `Submission.Status`: the completion endpoint only ever writes `SUBMITTED`. -/
inductive SubStatus
  | SUBMITTED
deriving DecidableEq, Repr

/-- One evaluation attempt (the `Submission` model): a nullable numeric
score plus the other fields the completion endpoint writes. -/
structure Submission where
  score : Option Int
  status : SubStatus
  submittedAt : Nat
  gradedAt : Nat
  feedback : String
deriving DecidableEq, Repr

/-- The slice of an `Assignment` row that the two handlers read and write.
`submissions` is ordered by creation; `assignment.submissions.last()` is
`List.getLast?`. -/
structure Assignment where
  studentId : Nat
  status : AStatus
  draft_response : String
  submissions : List Submission
deriving DecidableEq, Repr

/-- The three recognised game types. -/
inductive GameType
  | quiz
  | hangman
  | memory
deriving DecidableEq, Repr

/-- Game-type dispatch of `complete_game_ajax_view` (api.py lines 259-266):
`'levels' in game_data` → quiz, `elif 'word' in game_data or 'words' in
game_data` → hangman, `elif 'pairs' in game_data` → memory, else unknown. -/
def gameTypeOf (keys : List String) : Option GameType :=
  if keys.contains "levels" then some GameType.quiz
  else if keys.contains "word" || keys.contains "words" then some GameType.hangman
  else if keys.contains "pairs" then some GameType.memory
  else none

/-- JSON body returned by the completion endpoint.  `score`'s outer
`Option` is field presence, the inner one JSON `null` (a stored
submission score can be `None`).  `httpStatus` is the HTTP status code
of the `JsonResponse` (200 unless given). -/
structure GameResp where
  status : String
  score : Option (Option Int) := none
  completed : Option Bool := none
  message : Option String := none
  httpStatus : Nat := 200
deriving DecidableEq, Repr

/-- Outcome of the completion endpoint: `get_object_or_404` aborts with a
404 page when the assignment is not owned by the caller, otherwise the
handler returns the (possibly mutated) assignment and a JSON response. -/
inductive CompleteResult
  | notFound
  | response (a : Assignment) (r : GameResp)
deriving DecidableEq, Repr

/-- Python truthiness gate
`existing_sub and existing_sub.score and existing_sub.score >= 80`
(api.py line 279): `None` and `0` scores are falsy. -/
def passedGate : Option Submission → Bool
  | none => false
  | some sub =>
    match sub.score with
    | none => false
    | some s => decide (s ≠ 0 ∧ 80 ≤ s)

/-- `(existing_sub.score or 0)` (api.py line 286), evaluated only when a
submission exists; `None` and `0` both yield `0`. -/
def scoreOrZero : Option Submission → Int
  | none => 0
  | some sub => sub.score.getD 0

/-- In-place update `existing_sub.score = score; existing_sub.save(...)`
of the last submission (api.py lines 288-289). -/
def updateLastScore : List Submission → Int → List Submission
  | [], _ => []
  | [sub], s => [{ sub with score := some s }]
  | sub :: rest, s => sub :: updateLastScore rest s

/-- `Submission.objects.create(...)` as written by the completion endpoint
(api.py lines 291-299 and 337-345). -/
def mkSubmission (now : Nat) (score : Int) : Submission :=
  { score := some score
    status := SubStatus.SUBMITTED
    submittedAt := now
    gradedAt := now
    feedback := "Peli suoritettu." }

/-- `complete_game_ajax_view` (api.py lines 237-354).  `userId` is the
authenticated student, `structuredContent` the material's
`structured_content` keys (`none` = null column), `body` the parsed
request body (`none` = JSON decode error, `some s` = object with
optional `score` field `s`). -/
def complete_game_ajax_view (userId : Nat) (a : Assignment)
    (structuredContent : Option (List String))
    (body : Option (Option Int)) (now : Nat) : CompleteResult :=
  if a.studentId ≠ userId then CompleteResult.notFound
  else
    let game_data := structuredContent.getD []
    match gameTypeOf game_data with
    | none =>
        CompleteResult.response a
          { status := "error", message := some "Tuntematon pelityyppi", httpStatus := 400 }
    | some game_type =>
      match body with
      | none =>
          CompleteResult.response a
            { status := "error", message := some "Virheellinen JSON", httpStatus := 400 }
      | some scoreField =>
        let score := scoreField.getD 0
        if a.status = AStatus.GRADED then
          if game_type = GameType.quiz then
            let existing_sub := a.submissions.getLast?
            if passedGate existing_sub then
              CompleteResult.response a
                { status := "already_completed", completed := some true
                  score := some (existing_sub.bind Submission.score) }
            else
              let a' :=
                if existing_sub.isNone || scoreOrZero existing_sub < score then
                  match existing_sub with
                  | some _ => { a with submissions := updateLastScore a.submissions score }
                  | none => { a with submissions := a.submissions ++ [mkSubmission now score] }
                else a
              if 80 ≤ score then
                CompleteResult.response { a' with status := AStatus.GRADED }
                  { status := "success", score := some (some score), completed := some true }
              else
                CompleteResult.response a'
                  { status := "retry", score := some (some score), completed := some false }
          else
            CompleteResult.response a
              { status := "already_completed", completed := some true
                score := some (match a.submissions.getLast? with
                               | some sub => sub.score
                               | none => some 0) }
        else
          let completed : Bool :=
            if game_type = GameType.quiz then decide (80 ≤ score) else true
          let a' := if completed then { a with status := AStatus.GRADED } else a
          CompleteResult.response
            { a' with submissions := a'.submissions ++ [mkSubmission now score] }
            { status := "success", score := some (some score), completed := some completed }

/-- JSON body of the autosave endpoint. -/
structure AutosaveResp where
  ok : Bool
  error : Option String := none
  saved_at : Option Nat := none
  httpStatus : Nat := 200
deriving DecidableEq, Repr

/-- `assignment_autosave_view` (api.py lines 358-395).  `responseField` is
`request.POST.get("response")` (`none` = field absent). -/
def assignment_autosave_view (userId : Nat) (a : Assignment)
    (responseField : Option String) (now : Nat) : Assignment × AutosaveResp :=
  if a.studentId ≠ userId then
    (a, { ok := false, error := some "forbidden", httpStatus := 403 })
  else if a.status = AStatus.SUBMITTED ∨ a.status = AStatus.GRADED then
    (a, { ok := false, error := some "locked", httpStatus := 400 })
  else
    let draft := (responseField.getD "").trim
    let status' :=
      if draft ≠ "" ∧ a.status = AStatus.ASSIGNED then AStatus.IN_PROGRESS else a.status
    ({ a with draft_response := draft, status := status' },
     { ok := true, saved_at := some now })

/-- A parsed JSON value as far as the generation endpoint can observe it:
an object with its top-level keys, or any non-object value. -/
inductive JsonVal
  | obj (keys : List String)
  | nonObj
deriving DecidableEq, Repr

/-- Whether a payload matches one of the three recognised content shapes
(`levels` → quiz, `word`/`words` → hangman, `pairs` → memory). -/
def matchesRecognizedShape : JsonVal → Bool
  | JsonVal.obj keys =>
      keys.contains "levels" || keys.contains "word" ||
        keys.contains "words" || keys.contains "pairs"
  | JsonVal.nonObj => false

/-- `generate_game_content` (api.py lines 26-105): an unknown game type
raises `ValueError("Tuntematon pelityyppi")` before any API call; the
collaborator reply is handed to `json.loads` and returned as-is, with no
shape validation.  `apiReply = none` models a reply on which `json.loads`
raises. -/
def generate_game_content (game_type : String) (apiReply : Option JsonVal) :
    Except String JsonVal :=
  if game_type = "quiz" ∨ game_type = "hangman" ∨ game_type = "memory" then
    match apiReply with
    | some v => Except.ok v
    | none => Except.error "Virheellinen JSON-vastaus"
  else
    Except.error "Tuntematon pelityyppi"

/-- Outcome of `generate_game_ajax_view`: `ok` carries the `game_data`
payload of the `success: True` response (metadata generation never
raises and is elided). -/
inductive GenResult
  | ok (game_data : JsonVal)
  | error (msg : String) (httpStatus : Nat)
deriving DecidableEq, Repr

/-- Python truthiness of `data.get('topic')` / `data.get('game_type')`:
absent (`None`) and the empty string are falsy. -/
def truthyStr : Option String → Bool
  | none => false
  | some s => decide (s ≠ "")

/-- `generate_game_ajax_view` (api.py lines 194-232): teacher check, then
required-field check, then `generate_game_content`; any exception is
caught and returned as a 500 error, and a successfully parsed payload is
returned as success with no shape validation. -/
def generate_game_ajax_view (role : String) (topic game_type : Option String)
    (apiReply : Option JsonVal) : GenResult :=
  if role ≠ "TEACHER" then
    GenResult.error "Vain opettajat voivat luoda pelejä." 403
  else if !truthyStr topic || !truthyStr game_type then
    GenResult.error "Aihe ja pelityyppi ovat pakollisia." 400
  else
    match generate_game_content (game_type.getD "") apiReply with
    | Except.ok d => GenResult.ok d
    | Except.error e => GenResult.error e 500

/-- A fresh assignment used by the concrete witnesses. -/
def aAssigned : Assignment :=
  { studentId := 1, status := AStatus.ASSIGNED, draft_response := "", submissions := [] }

/-- A graded assignment with one passing submission, for idempotence witnesses. -/
def aGradedPassed : Assignment :=
  { studentId := 1, status := AStatus.GRADED, draft_response := ""
    submissions := [mkSubmission 5 90] }

/-- A graded assignment with one failing submission, for retry witnesses. -/
def aGradedFailed : Assignment :=
  { studentId := 1, status := AStatus.GRADED, draft_response := ""
    submissions := [mkSubmission 5 60] }

/-- Updating the last submission's score in place never changes the number
of submission rows. -/
theorem updateLastScore_length (subs : List Submission) (s : Int) :
    (updateLastScore subs s).length = subs.length := by
  induction subs with
  | nil => rfl
  | cons sub rest ih =>
    cases rest with
    | nil => rfl
    | cons b t =>
      simpa [updateLastScore] using ih

/-- C5: a completion request whose structured content has none of the keys
`levels`, `word`, `words`, `pairs` gets a 400 error naming the unknown
game type ("Tuntematon pelityyppi"), and nothing is mutated: the
assignment, its status, its fields and its submissions are returned
unchanged, for every request body. -/
theorem C5_unknown_game_type (userId : Nat) (a : Assignment) (keys : List String)
    (body : Option (Option Int)) (now : Nat)
    (hown : a.studentId = userId)
    (h1 : "levels" ∉ keys) (h2 : "word" ∉ keys)
    (h3 : "words" ∉ keys) (h4 : "pairs" ∉ keys) :
    complete_game_ajax_view userId a (some keys) body now
      = CompleteResult.response a
          { status := "error", message := some "Tuntematon pelityyppi", httpStatus := 400 } := by
  subst hown
  simp [complete_game_ajax_view, gameTypeOf, h1, h2, h3, h4]

/-- Witness for C5 at a concrete unknown-content request. -/
theorem C5_unknown_game_type_witness :
    complete_game_ajax_view 1 aAssigned (some ["foo"]) (some (some 85)) 7
      = CompleteResult.response aAssigned
          { status := "error", message := some "Tuntematon pelityyppi", httpStatus := 400 } :=
  C5_unknown_game_type 1 aAssigned ["foo"] (some (some 85)) 7 rfl
    (by decide) (by decide) (by decide) (by decide)

/-- C6: autosave by the owner on a SUBMITTED or GRADED assignment returns
`ok=false` with error "locked" and HTTP 400, and the assignment — in
particular `draft_response` and `status` — is unchanged. -/
theorem C6_autosave_locked (userId : Nat) (a : Assignment) (rf : Option String) (now : Nat)
    (hown : a.studentId = userId)
    (hlock : a.status = AStatus.SUBMITTED ∨ a.status = AStatus.GRADED) :
    assignment_autosave_view userId a rf now
      = (a, { ok := false, error := some "locked", httpStatus := 400 }) := by
  subst hown
  unfold assignment_autosave_view
  rw [if_neg (by simp), if_pos hlock]

/-- Witness for C6 on a concrete graded assignment. -/
theorem C6_autosave_locked_witness :
    assignment_autosave_view 1 aGradedPassed (some "x") 9
      = (aGradedPassed, { ok := false, error := some "locked", httpStatus := 400 }) :=
  C6_autosave_locked 1 aGradedPassed (some "x") 9 rfl (Or.inr rfl)

/-- C4: a completion request on an already-GRADED non-quiz assignment
responds `already_completed` with `completed=true` and the latest
submission's score (0 when none exists), and mutates nothing: the
assignment and its submissions are returned unchanged, for every
submitted score. -/
theorem C4_nonquiz_already_completed (userId : Nat) (a : Assignment)
    (keys : List String) (gt : GameType) (scoreField : Option Int) (now : Nat)
    (hown : a.studentId = userId)
    (hgt : gameTypeOf keys = some gt) (hnq : gt ≠ GameType.quiz)
    (hg : a.status = AStatus.GRADED) :
    complete_game_ajax_view userId a (some keys) (some scoreField) now
      = CompleteResult.response a
          { status := "already_completed", completed := some true
            score := some (match a.submissions.getLast? with
                           | some sub => sub.score
                           | none => some 0) } := by
  subst hown
  simp [complete_game_ajax_view, hgt, hnq, hg]

/-- Witness for C4: re-submitting 85 on a graded memory game echoes the
stored score 60 and leaves the assignment alone. -/
theorem C4_nonquiz_already_completed_witness :
    complete_game_ajax_view 1 aGradedFailed (some ["pairs"]) (some (some 85)) 7
      = CompleteResult.response aGradedFailed
          { status := "already_completed", completed := some true
            score := some (match aGradedFailed.submissions.getLast? with
                           | some sub => sub.score
                           | none => some 0) } :=
  C4_nonquiz_already_completed 1 aGradedFailed ["pairs"] GameType.memory (some 85) 7
    rfl rfl (by decide) rfl

/-- C2: a completion request on an already-GRADED quiz assignment whose
latest submission scored at least 80 responds `already_completed` with
`completed=true` and the stored score (not the newly submitted one), and
mutates nothing: the assignment and its submissions are returned
unchanged, for every re-submitted score. -/
theorem C2_quiz_idempotent (userId : Nat) (a : Assignment) (keys : List String)
    (scoreField : Option Int) (now : Nat) (sub : Submission) (s : Int)
    (hown : a.studentId = userId)
    (hq : gameTypeOf keys = some GameType.quiz)
    (hg : a.status = AStatus.GRADED)
    (hlast : a.submissions.getLast? = some sub)
    (hscore : sub.score = some s) (hs : 80 ≤ s) :
    complete_game_ajax_view userId a (some keys) (some scoreField) now
      = CompleteResult.response a
          { status := "already_completed", completed := some true
            score := some (some s) } := by
  subst hown
  have hs0 : s ≠ 0 := by omega
  simp [complete_game_ajax_view, hq, hg, hlast, passedGate, hscore, hs, hs0]

/-- Witness for C2: re-submitting 10 on a graded quiz with stored score 90
echoes 90 and changes nothing. -/
theorem C2_quiz_idempotent_witness :
    complete_game_ajax_view 1 aGradedPassed (some ["levels"]) (some (some 10)) 7
      = CompleteResult.response aGradedPassed
          { status := "already_completed", completed := some true
            score := some (some 90) } :=
  C2_quiz_idempotent 1 aGradedPassed ["levels"] (some 10) 7 (mkSubmission 5 90) 90
    rfl rfl rfl rfl rfl (by decide)

/-- C10: game-type dispatch on the completion endpoint is a fixed
precedence over key presence — `levels` first (quiz), then `word`/`words`
(hangman), then `pairs` (memory) — so any payload containing `levels` is
deterministically a quiz whatever other keys it carries. -/
theorem C10_dispatch_precedence (keys : List String) :
    ("levels" ∈ keys → gameTypeOf keys = some GameType.quiz) ∧
    ("levels" ∉ keys → ("word" ∈ keys ∨ "words" ∈ keys) →
        gameTypeOf keys = some GameType.hangman) ∧
    ("levels" ∉ keys → "word" ∉ keys → "words" ∉ keys → "pairs" ∈ keys →
        gameTypeOf keys = some GameType.memory) := by
  refine ⟨fun h => by simp [gameTypeOf, h], fun h1 h2 => ?_, fun h1 h2 h3 h4 => ?_⟩
  · rcases h2 with h2 | h2 <;> simp [gameTypeOf, h1, h2]
  · simp [gameTypeOf, h1, h2, h3, h4]

/-- Witness for C10: a payload with both `levels` and `pairs` is a quiz. -/
theorem C10_dispatch_precedence_witness :
    gameTypeOf ["levels", "pairs"] = some GameType.quiz :=
  (C10_dispatch_precedence ["levels", "pairs"]).1 (by decide)

/-- C8 counterexample: the generation endpoint does not validate the
collaborator payload's shape.  The empty JSON object matches none of the
three recognised shapes, yet a teacher request whose collaborator reply
parses to it is answered with `success=True` carrying that payload, not
treated as failed. -/
theorem C8_counterexample :
    matchesRecognizedShape (JsonVal.obj []) = false ∧
    generate_game_ajax_view "TEACHER" (some "matematiikka") (some "quiz")
        (some (JsonVal.obj [])) = GenResult.ok (JsonVal.obj []) :=
  ⟨rfl, by decide⟩

/-- C8 amended: for a teacher request with non-empty topic and a
recognised game type, the generation endpoint treats the collaborator
call as failed exactly when the reply text does not parse as JSON; every
reply that parses is returned as success with its payload, whether or
not it matches one of the three recognised shapes. -/
theorem C8_parse_failure_only (topic game_type : String) (apiReply : Option JsonVal)
    (ht : topic ≠ "")
    (hg : game_type = "quiz" ∨ game_type = "hangman" ∨ game_type = "memory") :
    generate_game_ajax_view "TEACHER" (some topic) (some game_type) apiReply
      = match apiReply with
        | some v => GenResult.ok v
        | none => GenResult.error "Virheellinen JSON-vastaus" 500 := by
  have hgne : game_type ≠ "" := by
    rcases hg with h | h | h <;> simp [h]
  unfold generate_game_ajax_view
  rw [if_neg (by simp)]
  rw [if_neg (by simp [truthyStr, ht, hgne])]
  unfold generate_game_content
  simp only [Option.getD_some]
  rw [if_pos hg]
  cases apiReply <;> rfl

/-- Witness for C8's amended statement: an unparseable collaborator reply
is surfaced as a 500 error. -/
theorem C8_parse_failure_only_witness :
    generate_game_ajax_view "TEACHER" (some "matematiikka") (some "quiz") none
      = GenResult.error "Virheellinen JSON-vastaus" 500 :=
  C8_parse_failure_only "matematiikka" "quiz" none (by decide) (Or.inl rfl)

/-- C1: a first attempt (status not GRADED) always creates a Submission
recording the submitted score; for quiz the assignment becomes GRADED
with `completed=true` exactly when the score is at least 80 and stays at
its old non-GRADED status with `completed=false` below 80; for non-quiz
it becomes GRADED with `completed=true` for every score. -/
theorem C1_first_attempt (userId : Nat) (a : Assignment) (keys : List String)
    (gt : GameType) (scoreField : Option Int) (now : Nat)
    (hown : a.studentId = userId)
    (hgt : gameTypeOf keys = some gt)
    (hng : a.status ≠ AStatus.GRADED) :
    ∃ a' r, complete_game_ajax_view userId a (some keys) (some scoreField) now
        = CompleteResult.response a' r ∧
      a'.submissions = a.submissions ++ [mkSubmission now (scoreField.getD 0)] ∧
      r.status = "success" ∧ r.httpStatus = 200 ∧
      r.score = some (some (scoreField.getD 0)) ∧
      (gt = GameType.quiz → 80 ≤ scoreField.getD 0 →
          a'.status = AStatus.GRADED ∧ r.completed = some true) ∧
      (gt = GameType.quiz → scoreField.getD 0 < 80 →
          a'.status = a.status ∧ r.completed = some false) ∧
      (gt ≠ GameType.quiz → a'.status = AStatus.GRADED ∧ r.completed = some true) := by
  subst hown
  by_cases hq : gt = GameType.quiz
  · subst hq
    by_cases hs : 80 ≤ scoreField.getD 0
    · have hstep : complete_game_ajax_view a.studentId a (some keys) (some scoreField) now
          = CompleteResult.response
              { a with status := AStatus.GRADED
                       submissions := a.submissions ++ [mkSubmission now (scoreField.getD 0)] }
              { status := "success", score := some (some (scoreField.getD 0))
                completed := some true } := by
        simp [complete_game_ajax_view, hgt, hng, hs]
      exact ⟨_, _, hstep, rfl, rfl, rfl, rfl,
        fun _ _ => ⟨rfl, rfl⟩,
        fun _ hlt => absurd hlt (not_lt.mpr hs),
        fun h => absurd rfl h⟩
    · have hstep : complete_game_ajax_view a.studentId a (some keys) (some scoreField) now
          = CompleteResult.response
              { a with submissions := a.submissions ++ [mkSubmission now (scoreField.getD 0)] }
              { status := "success", score := some (some (scoreField.getD 0))
                completed := some false } := by
        simp [complete_game_ajax_view, hgt, hng, hs]
      exact ⟨_, _, hstep, rfl, rfl, rfl, rfl,
        fun _ hge => absurd hge hs,
        fun _ _ => ⟨rfl, rfl⟩,
        fun h => absurd rfl h⟩
  · have hstep : complete_game_ajax_view a.studentId a (some keys) (some scoreField) now
        = CompleteResult.response
            { a with status := AStatus.GRADED
                     submissions := a.submissions ++ [mkSubmission now (scoreField.getD 0)] }
            { status := "success", score := some (some (scoreField.getD 0))
              completed := some true } := by
      simp [complete_game_ajax_view, hgt, hng, hq]
    exact ⟨_, _, hstep, rfl, rfl, rfl, rfl,
      fun h => absurd h hq,
      fun h => absurd h hq,
      fun _ => ⟨rfl, rfl⟩⟩

/-- Witness for C1: first quiz attempt with score 80 on a fresh assignment. -/
theorem C1_first_attempt_witness :
    ∃ a' r, complete_game_ajax_view 1 aAssigned (some ["levels"]) (some (some 80)) 7
        = CompleteResult.response a' r ∧
      a'.submissions = aAssigned.submissions ++ [mkSubmission 7 80] ∧
      r.status = "success" ∧ r.httpStatus = 200 ∧
      r.score = some (some 80) ∧
      (GameType.quiz = GameType.quiz → 80 ≤ (80 : Int) →
          a'.status = AStatus.GRADED ∧ r.completed = some true) ∧
      (GameType.quiz = GameType.quiz → (80 : Int) < 80 →
          a'.status = aAssigned.status ∧ r.completed = some false) ∧
      (GameType.quiz ≠ GameType.quiz → a'.status = AStatus.GRADED ∧ r.completed = some true) :=
  C1_first_attempt 1 aAssigned ["levels"] GameType.quiz (some 80) 7 rfl rfl (by decide)

/-- C9: a completion request whose body is a valid JSON object without a
`score` field is not rejected: the handler proceeds with score 0, so a
first attempt creates a Submission with score 0 and answers success —
`completed=false` with unchanged status for quiz, `completed=true` and
GRADED for non-quiz. -/
theorem C9_missing_score_defaults_zero (userId : Nat) (a : Assignment)
    (keys : List String) (gt : GameType) (now : Nat)
    (hown : a.studentId = userId) (hgt : gameTypeOf keys = some gt)
    (hng : a.status ≠ AStatus.GRADED) :
    ∃ a' r, complete_game_ajax_view userId a (some keys) (some none) now
        = CompleteResult.response a' r ∧
      r.status = "success" ∧ r.httpStatus = 200 ∧ r.score = some (some 0) ∧
      a'.submissions = a.submissions ++ [mkSubmission now 0] ∧
      (gt = GameType.quiz → r.completed = some false ∧ a'.status = a.status) ∧
      (gt ≠ GameType.quiz → r.completed = some true ∧ a'.status = AStatus.GRADED) := by
  subst hown
  by_cases hq : gt = GameType.quiz
  · subst hq
    have hstep : complete_game_ajax_view a.studentId a (some keys) (some none) now
        = CompleteResult.response
            { a with submissions := a.submissions ++ [mkSubmission now 0] }
            { status := "success", score := some (some 0), completed := some false } := by
      simp [complete_game_ajax_view, hgt, hng]
    exact ⟨_, _, hstep, rfl, rfl, rfl, rfl,
      fun _ => ⟨rfl, rfl⟩, fun h => absurd rfl h⟩
  · have hstep : complete_game_ajax_view a.studentId a (some keys) (some none) now
        = CompleteResult.response
            { a with status := AStatus.GRADED
                     submissions := a.submissions ++ [mkSubmission now 0] }
            { status := "success", score := some (some 0), completed := some true } := by
      simp [complete_game_ajax_view, hgt, hng, hq]
    exact ⟨_, _, hstep, rfl, rfl, rfl, rfl,
      fun h => absurd h hq, fun _ => ⟨rfl, rfl⟩⟩

/-- Witness for C9: a body without a score on a fresh quiz assignment. -/
theorem C9_missing_score_defaults_zero_witness :
    ∃ a' r, complete_game_ajax_view 1 aAssigned (some ["levels"]) (some none) 7
        = CompleteResult.response a' r ∧
      r.status = "success" ∧ r.httpStatus = 200 ∧ r.score = some (some 0) ∧
      a'.submissions = aAssigned.submissions ++ [mkSubmission 7 0] ∧
      (GameType.quiz = GameType.quiz → r.completed = some false ∧ a'.status = aAssigned.status) ∧
      (GameType.quiz ≠ GameType.quiz → r.completed = some true ∧ a'.status = AStatus.GRADED) :=
  C9_missing_score_defaults_zero 1 aAssigned ["levels"] GameType.quiz 7 rfl rfl (by decide)

/-- C7: a successful autosave by the owner on a non-locked assignment
stores the trimmed draft; when the trimmed draft is non-empty and the
status is ASSIGNED the status advances to IN_PROGRESS, and in every
other situation — in particular repeated autosaves while IN_PROGRESS —
the status is unchanged; the handler answers `ok=true` with the save
timestamp. -/
theorem C7_autosave_success (userId : Nat) (a : Assignment) (rf : Option String) (now : Nat)
    (hown : a.studentId = userId)
    (hns : a.status ≠ AStatus.SUBMITTED) (hng : a.status ≠ AStatus.GRADED) :
    ∃ a', assignment_autosave_view userId a rf now
        = (a', { ok := true, saved_at := some now }) ∧
      a'.draft_response = (rf.getD "").trim ∧
      a'.studentId = a.studentId ∧
      a'.submissions = a.submissions ∧
      ((rf.getD "").trim ≠ "" → a.status = AStatus.ASSIGNED →
          a'.status = AStatus.IN_PROGRESS) ∧
      ((rf.getD "").trim = "" ∨ a.status ≠ AStatus.ASSIGNED →
          a'.status = a.status) := by
  subst hown
  have hcond : ¬ (a.status = AStatus.SUBMITTED ∨ a.status = AStatus.GRADED) := by
    rintro (h | h)
    · exact hns h
    · exact hng h
  by_cases hd : (rf.getD "").trim ≠ "" ∧ a.status = AStatus.ASSIGNED
  · have hstep : assignment_autosave_view a.studentId a rf now
        = ({ a with draft_response := (rf.getD "").trim, status := AStatus.IN_PROGRESS },
           { ok := true, saved_at := some now }) := by
      simp [assignment_autosave_view, hcond, hd]
    refine ⟨_, hstep, rfl, rfl, rfl, fun _ _ => rfl, fun h => ?_⟩
    rcases h with h | h
    · exact absurd h hd.1
    · exact absurd hd.2 h
  · have hstep : assignment_autosave_view a.studentId a rf now
        = ({ a with draft_response := (rf.getD "").trim, status := a.status },
           { ok := true, saved_at := some now }) := by
      simp [assignment_autosave_view, hcond, hd]
    refine ⟨_, hstep, rfl, rfl, rfl, fun h1 h2 => absurd ⟨h1, h2⟩ hd, fun _ => rfl⟩

/-- Witness for C7: first-touch autosave of a non-empty draft on an
ASSIGNED assignment. -/
theorem C7_autosave_success_witness :
    ∃ a', assignment_autosave_view 1 aAssigned (some "  hello ") 9
        = (a', { ok := true, saved_at := some 9 }) ∧
      a'.draft_response = ((some "  hello ").getD "").trim ∧
      a'.studentId = aAssigned.studentId ∧
      a'.submissions = aAssigned.submissions ∧
      (((some "  hello ").getD "").trim ≠ "" → aAssigned.status = AStatus.ASSIGNED →
          a'.status = AStatus.IN_PROGRESS) ∧
      (((some "  hello ").getD "").trim = "" ∨ aAssigned.status ≠ AStatus.ASSIGNED →
          a'.status = aAssigned.status) :=
  C7_autosave_success 1 aAssigned (some "  hello ") 9 rfl (by decide) (by decide)

/-- C3: on an already-GRADED quiz assignment whose latest submission does
not pass the ≥80 gate, submitting a score that beats the stored one
updates the latest submission's score in place (same number of rows,
never a duplicate) and a new Submission is created only when none
exists; a score that does not beat the stored one changes no submission;
the response is `retry`/`completed=false` below 80 and
success/`completed=true` with the assignment (still) GRADED at 80 or
above. -/
theorem C3_quiz_retry_improvement (userId : Nat) (a : Assignment) (keys : List String)
    (score : Int) (now : Nat)
    (hown : a.studentId = userId)
    (hq : gameTypeOf keys = some GameType.quiz)
    (hg : a.status = AStatus.GRADED)
    (hgate : passedGate a.submissions.getLast? = false) :
    ∃ a' r, complete_game_ajax_view userId a (some keys) (some (some score)) now
        = CompleteResult.response a' r ∧
      (∀ sub, a.submissions.getLast? = some sub →
          (sub.score.getD 0 < score →
              a'.submissions = updateLastScore a.submissions score ∧
              a'.submissions.length = a.submissions.length) ∧
          (¬ sub.score.getD 0 < score → a'.submissions = a.submissions)) ∧
      (a.submissions.getLast? = none →
          a'.submissions = a.submissions ++ [mkSubmission now score]) ∧
      (score < 80 →
          r = { status := "retry", score := some (some score), completed := some false } ∧
          a'.status = a.status) ∧
      (80 ≤ score →
          r = { status := "success", score := some (some score), completed := some true } ∧
          a'.status = AStatus.GRADED) := by
  subst hown
  cases hlast : a.submissions.getLast? with
  | some sub =>
    rw [hlast] at hgate
    have hne : a.submissions ≠ [] := by
      intro h
      rw [h] at hlast
      cases hlast
    by_cases himp : sub.score.getD 0 < score
    · by_cases hs : 80 ≤ score
      · have hstep : complete_game_ajax_view a.studentId a (some keys) (some (some score)) now
            = CompleteResult.response
                { a with status := AStatus.GRADED
                         submissions := updateLastScore a.submissions score }
                { status := "success", score := some (some score)
                  completed := some true } := by
          simp [complete_game_ajax_view, hq, hg, hlast, hgate, scoreOrZero, hne, himp, hs]
        refine ⟨_, _, hstep, fun sub' h' => ?_, fun h => ?_,
          fun hlt => absurd hlt (not_lt.mpr hs), fun _ => ⟨rfl, rfl⟩⟩
        · cases Option.some.inj h'
          exact ⟨fun _ => ⟨rfl, updateLastScore_length _ _⟩, fun hn => absurd himp hn⟩
        · simp at h
      · have hstep : complete_game_ajax_view a.studentId a (some keys) (some (some score)) now
            = CompleteResult.response
                { a with submissions := updateLastScore a.submissions score }
                { status := "retry", score := some (some score)
                  completed := some false } := by
          simp [complete_game_ajax_view, hq, hg, hlast, hgate, scoreOrZero, hne, himp, hs]
        refine ⟨_, _, hstep, fun sub' h' => ?_, fun h => ?_,
          fun _ => ⟨rfl, rfl⟩, fun hge => absurd hge hs⟩
        · cases Option.some.inj h'
          exact ⟨fun _ => ⟨rfl, updateLastScore_length _ _⟩, fun hn => absurd himp hn⟩
        · simp at h
    · by_cases hs : 80 ≤ score
      · have hstep : complete_game_ajax_view a.studentId a (some keys) (some (some score)) now
            = CompleteResult.response { a with status := AStatus.GRADED }
                { status := "success", score := some (some score)
                  completed := some true } := by
          simp [complete_game_ajax_view, hq, hg, hlast, hgate, scoreOrZero, hne, himp, hs]
        refine ⟨_, _, hstep, fun sub' h' => ?_, fun h => ?_,
          fun hlt => absurd hlt (not_lt.mpr hs), fun _ => ⟨rfl, rfl⟩⟩
        · cases Option.some.inj h'
          exact ⟨fun hlt => absurd hlt himp, fun _ => rfl⟩
        · simp at h
      · have hstep : complete_game_ajax_view a.studentId a (some keys) (some (some score)) now
            = CompleteResult.response a
                { status := "retry", score := some (some score)
                  completed := some false } := by
          simp [complete_game_ajax_view, hq, hg, hlast, hgate, scoreOrZero, hne, himp, hs]
        refine ⟨_, _, hstep, fun sub' h' => ?_, fun h => ?_,
          fun _ => ⟨rfl, rfl⟩, fun hge => absurd hge hs⟩
        · cases Option.some.inj h'
          exact ⟨fun hlt => absurd hlt himp, fun _ => rfl⟩
        · simp at h
  | none =>
    have hnil : a.submissions = [] := List.getLast?_eq_none_iff.mp hlast
    by_cases hs : 80 ≤ score
    · have hstep : complete_game_ajax_view a.studentId a (some keys) (some (some score)) now
          = CompleteResult.response
              { a with status := AStatus.GRADED
                       submissions := a.submissions ++ [mkSubmission now score] }
              { status := "success", score := some (some score)
                completed := some true } := by
        simp [complete_game_ajax_view, hq, hg, hnil, passedGate, hs]
      refine ⟨_, _, hstep, fun sub' h' => ?_, fun _ => rfl,
        fun hlt => absurd hlt (not_lt.mpr hs), fun _ => ⟨rfl, rfl⟩⟩
      simp at h'
    · have hstep : complete_game_ajax_view a.studentId a (some keys) (some (some score)) now
          = CompleteResult.response
              { a with submissions := a.submissions ++ [mkSubmission now score] }
              { status := "retry", score := some (some score)
                completed := some false } := by
        simp [complete_game_ajax_view, hq, hg, hnil, passedGate, hs]
      refine ⟨_, _, hstep, fun sub' h' => ?_, fun _ => rfl,
        fun _ => ⟨rfl, rfl⟩, fun hge => absurd hge hs⟩
      simp at h'

/-- Witness for C3: a graded quiz with stored score 60 receives 70 — the
submission is updated in place and the response is a retry. -/
theorem C3_quiz_retry_improvement_witness :
    ∃ a' r, complete_game_ajax_view 1 aGradedFailed (some ["levels"]) (some (some 70)) 9
        = CompleteResult.response a' r ∧
      (∀ sub, aGradedFailed.submissions.getLast? = some sub →
          (sub.score.getD 0 < 70 →
              a'.submissions = updateLastScore aGradedFailed.submissions 70 ∧
              a'.submissions.length = aGradedFailed.submissions.length) ∧
          (¬ sub.score.getD 0 < 70 → a'.submissions = aGradedFailed.submissions)) ∧
      (aGradedFailed.submissions.getLast? = none →
          a'.submissions = aGradedFailed.submissions ++ [mkSubmission 9 70]) ∧
      ((70 : Int) < 80 →
          r = { status := "retry", score := some (some 70), completed := some false } ∧
          a'.status = aGradedFailed.status) ∧
      ((80 : Int) ≤ 70 →
          r = { status := "success", score := some (some 70), completed := some true } ∧
          a'.status = AStatus.GRADED) :=
  C3_quiz_retry_improvement 1 aGradedFailed ["levels"] 70 9 rfl rfl rfl (by decide)

end TaskuOpe
